import Mathlib

/-
Verification of the learn-chaincode repository (three Go chaincode programs).

Shallow embedding conventions:
 * Each chaincode program has its own ledger keyspace, modelled as an
   association list from keys to stored values; `put` prepends and `get`
   returns the most recent binding, matching overwrite semantics.
 * The Fabric shim's GetState returns nil bytes (no error) for an absent
   key, so the `if err != nil` branches after GetState/PutState in the
   source are dead and are not modelled.
 * Monetary strings are modelled through their parsed numeric value as an
   exact rational.  The source parses with strconv.ParseFloat and writes
   back strconv.FormatFloat(v, 'E', -1, 64), which round-trips exactly, so
   a stored numeric string is represented by its value.  Arithmetic is
   modelled exactly; every concrete input used below is also exact in
   float64 arithmetic.
 * `parseDec` models strconv.ParseFloat on ordinary decimal and
   exponent-form numerals (sign, digits, optional fraction, optional
   exponent).  Exotic float syntaxes (inf, NaN, hex floats) are outside the
   model's string domain.
 * A stored byte string is represented by a constructor describing its
   shape: a JSON-encoded record is represented by the record itself, and
   `raw s` represents a byte string (role labels, plain values) that is not
   a valid JSON document, so that json.Unmarshal of it into any record type
   fails.
 * A Go function returning ([]byte, error) is modelled as `GoRes`; `crash`
   models a runtime panic (slice index out of range).
-/

/-- Value of a list of decimal digit characters. -/
def digitsVal (l : List Char) : ℕ :=
  l.foldl (fun n c => 10 * n + (c.toNat - 48)) 0

/-- Consume an optional leading sign; true means negative. -/
def parseSign : List Char → Bool × List Char
  | '-' :: r => (true, r)
  | '+' :: r => (false, r)
  | cs => (false, cs)

/-- Mantissa of a float literal: digits with an optional fractional part. -/
def parseMantissa (cs : List Char) : Option (ℚ × List Char) :=
  let ip := cs.takeWhile Char.isDigit
  let r1 := cs.dropWhile Char.isDigit
  match r1 with
  | '.' :: r2 =>
    let fp := r2.takeWhile Char.isDigit
    let r3 := r2.dropWhile Char.isDigit
    if ip.isEmpty && fp.isEmpty then none
    else some ((digitsVal ip : ℚ) + (digitsVal fp : ℚ) / (10 : ℚ) ^ fp.length, r3)
  | _ =>
    if ip.isEmpty then none
    else some ((digitsVal ip : ℚ), r1)

/-- Optional exponent part of a float literal. -/
def parseExpPart : List Char → Option (Int × List Char)
  | c :: r =>
    if c = 'e' || c = 'E' then
      let (en, r2) := parseSign r
      let ed := r2.takeWhile Char.isDigit
      let r3 := r2.dropWhile Char.isDigit
      if ed.isEmpty then none
      else some ((if en then -(digitsVal ed : Int) else (digitsVal ed : Int)), r3)
    else some (0, c :: r)
  | [] => some (0, [])

/-- Apply a decimal exponent to a mantissa. -/
def applyExp (m : ℚ) (e : Int) : ℚ :=
  if 0 ≤ e then m * (10 : ℚ) ^ e.toNat else m / (10 : ℚ) ^ (-e).toNat

/-- Model of strconv.ParseFloat on decimal/exponent numerals, as the exact
rational value; none models a parse error. -/
def parseDec (s : String) : Option ℚ :=
  let (neg, cs) := parseSign s.toList
  match parseMantissa cs with
  | none => none
  | some (m, r) =>
    match parseExpPart r with
    | none => none
    | some (e, r2) =>
      if r2.isEmpty then some (applyExp (if neg then -m else m) e) else none

/-- Result of a Go chaincode method returning ([]byte, error).
`crash` models a runtime panic (index out of range). -/
inductive GoRes where
  | ok (out : Option String)
  | err (msg : String)
  | crash
deriving DecidableEq, Repr

/-! ## The user-balance programs
(src/start/chaincode_start.go, first program, and src/unnamed/part_000)

Their ledgers hold plain byte strings; balances are read back with
strconv.ParseFloat.  `num q` is a numeric string with value q, `raw s`
any other byte string. -/

inductive MVal where
  | num (q : ℚ)
  | raw (s : String)
deriving DecidableEq, Repr

abbrev MStore := List (String × MVal)

def mget : MStore → String → Option MVal
  | [], _ => none
  | (k, v) :: rest, key => if k = key then some v else mget rest key

def mput (st : MStore) (k : String) (v : MVal) : MStore := (k, v) :: st

/-- string(GetState(key)) fed to strconv.ParseFloat: an absent key yields
nil bytes, hence the empty string, which fails to parse. -/
def mParse : Option MVal → Option ℚ
  | some (.num q) => some q
  | some (.raw s) => parseDec s
  | none => none

namespace StartCC

/-- init_amount from src/start/chaincode_start.go (lines 178-209).  After
enforcing exactly 2 arguments it evaluates strconv.ParseFloat(args[2], 64):
index 2 is out of range for a 2-element slice, a runtime panic. -/
def init_amount (st : MStore) (args : List String) : GoRes × MStore :=
  if args.length ≠ 2 then (.err "Incorrect number of arguments. Expecting 2", st)
  else if (args.getD 0 "").length = 0 then (.err "1st argument must be a non-empty string", st)
  else if (args.getD 1 "").length = 0 then (.err "2nd argument must be a non-empty string", st)
  else
    match args.get? 2 with
    | none => (.crash, st)
    | some a2 =>
      match parseDec a2 with
      | none => (.err "2nd argument must be a numeric string", st)
      | some amount => (.ok none, mput st (args.getD 0 "") (.num amount))

/-- transfer from src/start/chaincode_start.go (lines 214-278).  Both
PutState calls at lines 264 and 270 use args[0]: the second write stores
the to-balance under the from-key, and args[1] is never written. -/
def transfer (st : MStore) (args : List String) : GoRes × MStore :=
  if args.length < 3 then (.err "Incorrect number of arguments. Expecting 3", st)
  else
    match parseDec (args.getD 2 "") with
    | none => (.err "3rd argument must be a numeric string", st)
    | some amount =>
      match mParse (mget st (args.getD 0 "")) with
      | none => (.err "ParseFloat error", st)
      | some amountA =>
        match mParse (mget st (args.getD 1 "")) with
        | none => (.err "ParseFloat error", st)
        | some amountB =>
          if amountA - amount < 0 then
            (.err (args.getD 0 "" ++ " doesn't have enough balance to complete transaction"), st)
          else
            (.ok none,
              mput (mput st (args.getD 0 "") (.num (amountA - amount)))
                (args.getD 0 "") (.num (amountB + amount)))

end StartCC

namespace Part0

/-- init_amount from src/unnamed/part_000 (lines 126-157); parses args[1]. -/
def init_amount (st : MStore) (args : List String) : GoRes × MStore :=
  if args.length ≠ 2 then (.err "Incorrect number of arguments. Expecting 2", st)
  else if (args.getD 0 "").length = 0 then (.err "1st argument must be a non-empty string", st)
  else if (args.getD 1 "").length = 0 then (.err "2nd argument must be a non-empty string", st)
  else
    match parseDec (args.getD 1 "") with
    | none => (.err "2nd argument must be a numeric string", st)
    | some amount => (.ok none, mput st (args.getD 0 "") (.num amount))

end Part0

/-! ## The account-transfer program (src/account/accounts.go, first program) -/

/-- Account record (accounts.go lines 38-43).  The Balance string is
modelled through its ParseFloat value; none models a string (such as the
zero value of the struct) that does not parse. -/
structure Account where
  accountNo : String
  legalEntity : String
  currency : String
  balance : Option ℚ
deriving DecidableEq, Repr

/-- A stored byte string of the accounts program: a non-JSON byte string,
an Account JSON object, or the JSON array of the account index. -/
inductive AVal where
  | raw (s : String)
  | acctJson (a : Account)
  | idxJson (l : List String)
deriving DecidableEq, Repr

abbrev AStore := List (String × AVal)

def aget : AStore → String → Option AVal
  | [], _ => none
  | (k, v) :: rest, key => if k = key then some v else aget rest key

def aput (st : AStore) (k : String) (v : AVal) : AStore := (k, v) :: st

def zeroAccount : Account := ⟨"", "", "", none⟩

/-- json.Unmarshal into an Account with the error ignored (accounts.go
lines 250-251 and 307-315): any bytes that are not an Account JSON object
(absent key, plain string, the index array) leave the zero value. -/
def decodeAccount : Option AVal → Account
  | some (.acctJson a) => a
  | _ => zeroAccount

/-- json.Unmarshal into a []string with the error ignored (accounts.go
lines 270-271): non-array bytes leave the nil slice. -/
def decodeIdx : Option AVal → List String
  | some (.idxJson l) => l
  | _ => []

def accountIndexStr : String := "_accountindex"

namespace AccountsCC

/-- init_account from src/account/accounts.go (lines 210-281).  The
duplicate check decodes whatever is stored under args[0] and compares the
embedded AccountNo field with args[0]; the error messages (including the
source's typos) are kept.  On the create path the account record is
written first and the index is then read, appended to and written. -/
def init_account (st : AStore) (args : List String) : GoRes × AStore :=
  if args.length ≠ 4 then (.err "Incorrect number of arguments. Expecting 4", st)
  else if (args.getD 0 "").length = 0 then (.err "1st argument must be a non-empty string", st)
  else if (args.getD 1 "").length = 0 then (.err "2nd argument must be a non-empty string", st)
  else if (args.getD 2 "").length = 0 then (.err "3rd argument must be a non-empty string", st)
  else if (args.getD 3 "").length = 0 then (.err "3rd argument must be a non-empty string", st)
  else
    match parseDec (args.getD 3 "") with
    | none => (.err "4rd argument must be a numeric string", st)
    | some ammount =>
      let accountNo := args.getD 0 ""
      let res := decodeAccount (aget st accountNo)
      if res.accountNo = accountNo then (.err "This account arleady exists", st)
      else
        let st1 := aput st accountNo
          (.acctJson ⟨accountNo, (args.getD 1 "").toLower, args.getD 2 "", some ammount⟩)
        let accountIndex := decodeIdx (aget st1 accountIndexStr)
        (.ok none, aput st1 accountIndexStr (.idxJson (accountIndex ++ [accountNo])))

/-- transfer_balance from src/account/accounts.go (lines 286-352).  Where
the source propagates the strconv error from parsing a stored Balance
string, the message is abstracted as "ParseFloat error". -/
def transfer_balance (st : AStore) (args : List String) : GoRes × AStore :=
  if args.length < 3 then (.err "Incorrect number of arguments. Expecting 3", st)
  else
    match parseDec (args.getD 2 "") with
    | none => (.err "3rd argument must be a numeric string", st)
    | some amount =>
      let resA := decodeAccount (aget st (args.getD 0 ""))
      let resB := decodeAccount (aget st (args.getD 1 ""))
      match resA.balance with
      | none => (.err "ParseFloat error", st)
      | some balanceA =>
        match resB.balance with
        | none => (.err "ParseFloat error", st)
        | some balanceB =>
          if balanceA - amount < 0 then
            (.err (args.getD 0 "" ++ " doesn't have enough balance to complete transaction"), st)
          else
            (.ok none,
              aput (aput st (args.getD 0 "")
                  (.acctJson { resA with balance := some (balanceA - amount) }))
                (args.getD 1 "") (.acctJson { resB with balance := some (balanceB + amount) }))

end AccountsCC

/-! ## The invoice-trading program (src/start/chaincode_start.go, second program)

Its ledger holds participant-role byte strings (written by Init via
add_particants), Invoice JSON objects and the invoice holder object under
the key "invoiceIDs" — all in the one keyspace. -/

/-- Invoice record (chaincode_start.go lines 310-321); in this program the
Status field is a string ("0"/"1"/"2"). -/
structure Invoice where
  invoiceId : String
  amount : String
  currency : String
  supplier : String
  payer : String
  dueDate : String
  status : String
  buyer : String
  discount : String
deriving DecidableEq, Repr

/-- The zero Invoice left by a failed json.Unmarshal. -/
def zeroInvoice : Invoice := ⟨"", "", "", "", "", "", "", "", ""⟩

inductive IVal where
  | raw (s : String)
  | invJson (i : Invoice)
  | holderJson (l : List String)
deriving DecidableEq, Repr

abbrev IStore := List (String × IVal)

def iget : IStore → String → Option IVal
  | [], _ => none
  | (k, v) :: rest, key => if k = key then some v else iget rest key

def iput (st : IStore) (k : String) (v : IVal) : IStore := (k, v) :: st

/-- One quoted JSON string field, as json.Marshal renders it. -/
def jsonField (name val : String) : String := "\"" ++ name ++ "\":\"" ++ val ++ "\""

/-- json.Marshal output for an Invoice, fields in struct order. -/
def Invoice.jsonText (i : Invoice) : String :=
  "\x7b" ++ jsonField "invoiceid" i.invoiceId ++ "," ++ jsonField "amount" i.amount ++ "," ++
    jsonField "currency" i.currency ++ "," ++ jsonField "supplier" i.supplier ++ "," ++
    jsonField "payer" i.payer ++ "," ++ jsonField "duedate" i.dueDate ++ "," ++
    jsonField "status" i.status ++ "," ++ jsonField "buyer" i.buyer ++ "," ++
    jsonField "discount" i.discount ++ "\x7d"

/-- json.Marshal output for an Invoice_Holder; the nil slice renders as
null. -/
def holderJsonText (l : List String) : String :=
  "\x7b\"invoices\":" ++
    (if l.isEmpty then "null"
     else "[" ++ String.intercalate "," (l.map (fun s => "\"" ++ s ++ "\"")) ++ "]") ++
    "\x7d"

/-- string(bytes) of a stored value; an absent key gives nil bytes, hence
the empty string, and JSON-encoded records read back as their JSON text. -/
def ivalText : Option IVal → String
  | none => ""
  | some (.raw s) => s
  | some (.invJson i) => i.jsonText
  | some (.holderJson l) => holderJsonText l

/-- json.Unmarshal into an Invoice, with the error (chaincode_start.go
lines 395-397): an Invoice object decodes to itself; any other JSON object
(such as the holder) decodes without error to the zero Invoice because its
fields do not match; non-JSON bytes and absent keys fail. -/
def decodeInvoiceE : Option IVal → Except String Invoice
  | some (.invJson i) => .ok i
  | some (.holderJson _) => .ok zeroInvoice
  | _ => .error "RETRIEVE_INVOICE: Corrupt invoice record"

/-- json.Unmarshal into an Invoice_Holder, with the error (lines 560-562):
the holder object decodes to its list; any other JSON object decodes
without error to the zero holder (nil slice); non-JSON bytes and absent
keys fail. -/
def decodeHolderE : Option IVal → Except String (List String)
  | some (.holderJson l) => .ok l
  | some (.invJson _) => .ok []
  | _ => .error "Corrupt Invoice_Holder record"

/-- The hand-concatenated invoice JSON of create_invoice is valid exactly
when no argument breaks the quoting; quotes and backslashes in an argument
make the constructed text fail json.Unmarshal. -/
def jsonSafe (s : String) : Bool :=
  s.toList.all (fun c => c ≠ '"' && c ≠ '\\')

/-- The result array text: "[" plus comma-joined entries plus "]", exactly
what the append-then-trim loop of the source produces. -/
def renderInvoices (l : List Invoice) : String :=
  "[" ++ String.intercalate "," (l.map Invoice.jsonText) ++ "]"

/-- Whether the key currently holds an Invoice JSON object. -/
def isInvAt (st : IStore) (iid : String) : Bool :=
  match iget st iid with
  | some (.invJson _) => true
  | _ => false

namespace InvCC

/-- add_particants (chaincode_start.go lines 364-374): stores the role
bytes under the participant name, in the same keyspace as invoices. -/
def add_particants (st : IStore) (name role : String) : GoRes × IStore :=
  (.ok none, iput st name (.raw role))

/-- The Init loop (lines 353-355) walks the arguments two at a time and
reads args[i+1] without a bound check: an odd-length list panics at the
end. -/
def initPairs (st : IStore) : List String → GoRes × IStore
  | [] => (.ok none, st)
  | [_] => (.crash, st)
  | n :: r :: rest => initPairs (add_particants st n r).2 rest

/-- Init (chaincode_start.go lines 337-358): writes the empty invoice
holder under "invoiceIDs", then registers the (name, role) pairs. -/
def Init (st : IStore) (args : List String) : GoRes × IStore :=
  initPairs (iput st "invoiceIDs" (.holderJson [])) args

/-- get_role (lines 376-381): string(GetState(name)); the GetState error
branch is dead, and an absent key yields the empty string. -/
def get_role (st : IStore) (name : String) : String :=
  ivalText (iget st name)

/-- retrieve_invoice with its error ignored, as offer_trade and
accept_trade use it (lines 589, 618): a failed retrieval leaves the zero
Invoice. -/
def retrieve_or_zero (st : IStore) (invoiceId : String) : Invoice :=
  match decodeInvoiceE (iget st invoiceId) with
  | .ok inv => inv
  | .error _ => zeroInvoice

/-- create_invoice (chaincode_start.go lines 499-576).  args[0..3] are
indexed without a length check; the constructed JSON is parsed (invalid
only if an argument breaks the quoting); the duplicate check is bare key
occupancy (record != nil) and runs before both role checks; on success the
invoice is saved first and the holder is then read, appended to and
written. -/
def create_invoice (st : IStore) (args : List String) : GoRes × IStore :=
  if args.length < 4 then (.crash, st)
  else if ¬ (jsonSafe (args.getD 0 "") && jsonSafe (args.getD 1 "") &&
      jsonSafe (args.getD 2 "") && jsonSafe (args.getD 3 "")) then
    (.err "Invalid JSON object", st)
  else
    let inv : Invoice := ⟨args.getD 0 "", args.getD 1 "", "USD", args.getD 2 "",
      args.getD 3 "", "UNDEFINED", "0", "UNDEFINED", "UNDEFINED"⟩
    if (iget st inv.invoiceId).isSome then (.err "Invoice already exists", st)
    else
      let role := get_role st (args.getD 2 "")
      if role ≠ "supplier" then
        (.err ("Permission Denied. create_invoice. " ++ role ++ " !== supplier"), st)
      else
        let role2 := get_role st (args.getD 3 "")
        if role2 ≠ "payer" then
          (.err ("Permission Denied. create_invoice. " ++ role2 ++ " !== payer"), st)
        else
          let st1 := iput st inv.invoiceId (.invJson inv)
          match decodeHolderE (iget st1 "invoiceIDs") with
          | .error _ => (.err "Corrupt Invoice_Holder record", st1)
          | .ok ids => (.ok none, iput st1 "invoiceIDs" (.holderJson (ids ++ [args.getD 0 ""])))

/-- offer_trade (chaincode_start.go lines 578-605).  args[0]/args[2] are
indexed without a length check; the retrieve error is ignored; the only
guard is caller == supplier; Status is set to "1" and Discount to args[1]
unconditionally — the current status is never inspected. -/
def offer_trade (st : IStore) (args : List String) : GoRes × IStore :=
  if args.length < 3 then (.crash, st)
  else
    let caller := args.getD 2 ""
    let inv := retrieve_or_zero st (args.getD 0 "")
    if caller ≠ inv.supplier then
      (.err ("Permission Denied. offer_trade. " ++ caller ++ " !== " ++ inv.supplier), st)
    else
      (.ok none, iput st inv.invoiceId (.invJson { inv with status := "1", discount := args.getD 1 "" }))

/-- accept_trade (chaincode_start.go lines 607-634).  args[0]/args[1] are
indexed without a length check; the retrieve error is ignored; the only
guard is that the caller's registered role is buyer; Buyer and Status are
set unconditionally — the current status is never inspected.  (The source
reuses the "offer_trade" text in the error message.) -/
def accept_trade (st : IStore) (args : List String) : GoRes × IStore :=
  if args.length < 2 then (.crash, st)
  else
    let caller := args.getD 1 ""
    let inv := retrieve_or_zero st (args.getD 0 "")
    let role := get_role st caller
    if role ≠ "buyer" then
      (.err ("Permission Denied. offer_trade. " ++ role ++ " !== buyer"), st)
    else
      (.ok none, iput st inv.invoiceId (.invJson { inv with buyer := caller, status := "2" }))

/-- get_invoice_details (chaincode_start.go lines 642-656): pure check of
the caller against the supplier, buyer and payer recorded on the invoice. -/
def get_invoice_details (inv : Invoice) (caller : String) : GoRes :=
  if inv.supplier = caller ∨ inv.buyer = caller ∨ inv.payer = caller then
    .ok (some inv.jsonText)
  else .err "Permission Denied. get_invoice_details"

/-- The retrieval loop of get_opening_trade_invoices (lines 717-727),
keeping the invoices whose status is OFFERED.  The source writes
inv.Status == 1, comparing the string field with an untyped int constant —
a type mismatch the Go compiler rejects; the evident intent, modelled
here, is comparison with OFFERED ("1"). -/
def collect_offered (st : IStore) : List String → Except String (List Invoice)
  | [] => .ok []
  | iid :: rest =>
    match decodeInvoiceE (iget st iid) with
    | .error _ => .error "Failed to retrieve Invoice"
    | .ok inv =>
      match collect_offered st rest with
      | .error e => .error e
      | .ok l => .ok (if inv.status == "1" then inv :: l else l)

/-- get_opening_trade_invoices (chaincode_start.go lines 702-736): reads
the holder, retrieves every indexed invoice and renders those with status
OFFERED; the args (and so the caller identity) are never consulted. -/
def get_opening_trade_invoices (st : IStore) (args : List String) : GoRes × IStore :=
  match decodeHolderE (iget st "invoiceIDs") with
  | .error _ => (.err "Corrupt Invoice_Holder", st)
  | .ok ids =>
    match collect_offered st ids with
    | .error e => (.err e, st)
    | .ok l => (.ok (some (renderInvoices l)), st)

end InvCC

/-! ## The earlier invoice program (src/account/accounts.go, second program) -/

/-- Invoice record of the accounts.go invoice program (lines 384-395):
there the Status field is an int. -/
structure InvoiceV0 where
  invoiceId : String
  amount : String
  currency : String
  supplier : String
  payer : String
  dueDate : String
  status : Int
  buyer : String
  discount : String
deriving DecidableEq, Repr

/-- json.Marshal output for the accounts.go Invoice; status is a bare
integer. -/
def InvoiceV0.jsonText (i : InvoiceV0) : String :=
  "\x7b" ++ jsonField "invoiceid" i.invoiceId ++ "," ++ jsonField "amount" i.amount ++ "," ++
    jsonField "currency" i.currency ++ "," ++ jsonField "supplier" i.supplier ++ "," ++
    jsonField "payer" i.payer ++ "," ++ jsonField "duedate" i.dueDate ++ "," ++
    "\"status\":" ++ toString i.status ++ "," ++ jsonField "buyer" i.buyer ++ "," ++
    jsonField "discount" i.discount ++ "\x7d"

namespace InvV0

/-- get_invoice_details from src/account/accounts.go (lines 670-683): the
check covers only the supplier and the buyer — the payer is absent. -/
def get_invoice_details (inv : InvoiceV0) (caller : String) : GoRes :=
  if inv.supplier = caller ∨ inv.buyer = caller then
    .ok (some inv.jsonText)
  else .err "Permission Denied. get_invoice_details"

end InvV0

/-! ## Concrete stores used by witnesses and counterexamples -/

def c1Store : MStore := [("alice", MVal.raw "500"), ("bob", MVal.raw "0")]

def c3aStore : AStore :=
  [("ACC1", AVal.acctJson ⟨"ACC1", "alice", "USD", some 300⟩),
   ("ACC2", AVal.acctJson ⟨"ACC2", "bob", "USD", some 0⟩)]

def c3mStore : MStore := [("ACC1", MVal.raw "300"), ("ACC2", MVal.raw "0")]

def c4Store : AStore :=
  [("ACC1", AVal.acctJson ⟨"ACC1", "alice", "USD", some 10⟩),
   ("ACC2", AVal.acctJson ⟨"ACC2", "bob", "USD", some 10⟩)]

def c6Store : AStore := [("A1", AVal.raw "supplier")]

def c9Store : AStore := [("A1", AVal.acctJson ⟨"A1", "alice", "USD", some 100⟩)]

def c2Inv : Invoice :=
  ⟨"INV1", "100.00", "USD", "test_user0", "test_user1", "UNDEFINED", "0", "UNDEFINED", "UNDEFINED"⟩

def c2Store : IStore := [("INV1", IVal.invJson c2Inv), ("bob", IVal.raw "buyer")]

def c5Inv0 : InvoiceV0 :=
  ⟨"INV1", "100.00", "USD", "supplierA", "payerA", "UNDEFINED", 0, "UNDEFINED", "UNDEFINED"⟩

def c8Inv1 : Invoice :=
  ⟨"I1", "100.00", "USD", "s1", "p1", "UNDEFINED", "1", "UNDEFINED", "2.5"⟩

def c8Inv2 : Invoice :=
  ⟨"I2", "70.00", "USD", "s1", "p1", "UNDEFINED", "0", "UNDEFINED", "UNDEFINED"⟩

def c8Store : IStore :=
  [("invoiceIDs", IVal.holderJson ["I1", "I2"]),
   ("I1", IVal.invJson c8Inv1), ("I2", IVal.invJson c8Inv2)]

def c10Store : IStore := [("supplier1", IVal.raw "supplier")]

section ConcreteEvaluation

attribute [local semireducible] Rat.mul Rat.add Rat.sub Rat.inv

/-- Claim C1 (failing evidence): on the transfer of 200 from alice (500) to
bob (0) in chaincode_start.go, the call succeeds but both writes go to the
from-key, so alice ends at 200, bob stays at 0, and the total drops from
500 to 200: the pair update and conservation stated by the claim fail. -/
theorem C1_transfer_misdirected_write :
  (StartCC.transfer c1Store ["alice", "bob", "200"]).1 = GoRes.ok none ∧
  mParse (mget (StartCC.transfer c1Store ["alice", "bob", "200"]).2 "alice") = some 200 ∧
  mParse (mget (StartCC.transfer c1Store ["alice", "bob", "200"]).2 "bob") = some 0 ∧
  (200 : ℚ) + 0 ≠ 500 + 0 := by
  decide

/-- Claim C7 (failing evidence): with its documented arity of 2, the
chaincode_start.go init_amount panics with an out-of-range access to
args[2], instead of returning a result or error; the part_000 version of
the same function (which reads args[1]) returns normally on the same
input. -/
theorem C7_init_amount_args2_crash :
  StartCC.init_amount [] ["bob", "200.45"] = (GoRes.crash, []) ∧
  Part0.init_amount [] ["bob", "200.45"] =
    (GoRes.ok none, [("bob", MVal.num (20045 / 100))]) := by
  decide

/-- Claim C3: in both cited transfer implementations, when the requested
amount exceeds the parsed from-balance, the operation fails with the
insufficient-funds error and the returned state is exactly the input
state, so no balance is written. -/
theorem C3_insufficient_funds_no_write (stA : AStore) (stM : MStore) (f t s : String)
    (q fa fb ma mb : ℚ)
    (hq : parseDec s = some q)
    (hfa : (decodeAccount (aget stA f)).balance = some fa)
    (hfb : (decodeAccount (aget stA t)).balance = some fb)
    (hlt : fa < q)
    (hma : mParse (mget stM f) = some ma)
    (hmb : mParse (mget stM t) = some mb)
    (hlt2 : ma < q) :
    AccountsCC.transfer_balance stA [f, t, s] =
      (.err (f ++ " doesn't have enough balance to complete transaction"), stA) ∧
    StartCC.transfer stM [f, t, s] =
      (.err (f ++ " doesn't have enough balance to complete transaction"), stM) := by
  have h1 : fa - q < 0 := by linarith
  have h2 : ma - q < 0 := by linarith
  constructor
  · simp [AccountsCC.transfer_balance, hq, hfa, hfb, h1]
  · simp [StartCC.transfer, hq, hma, hmb, h2]

/-- Witness for C3 (spec Scenario B): transferring 999 from an account
holding 300 fails with the insufficient-funds error and leaves the store
untouched, in both programs. -/
theorem C3_insufficient_funds_no_write_witness :
    AccountsCC.transfer_balance c3aStore ["ACC1", "ACC2", "999"] =
      (.err ("ACC1" ++ " doesn't have enough balance to complete transaction"), c3aStore) ∧
    StartCC.transfer c3mStore ["ACC1", "ACC2", "999"] =
      (.err ("ACC1" ++ " doesn't have enough balance to complete transaction"), c3mStore) :=
  C3_insufficient_funds_no_write c3aStore c3mStore "ACC1" "ACC2" "999" 999 300 0 300 0
    (by decide) (by decide) (by decide) (by decide) (by decide) (by decide) (by decide)

/-- Claim C4 (counterexample): the amount "-5" is a negative numeric
string, yet transfer_balance does not fail with a validation error: it
succeeds and moves -5, raising the from-balance from 10 to 15 and lowering
the to-balance from 10 to 5. -/
theorem C4_negative_amount_counterexample :
    (AccountsCC.transfer_balance c4Store ["ACC1", "ACC2", "-5"]).1 = GoRes.ok none ∧
    (decodeAccount (aget (AccountsCC.transfer_balance c4Store ["ACC1", "ACC2", "-5"]).2
        "ACC1")).balance = some 15 ∧
    (decodeAccount (aget (AccountsCC.transfer_balance c4Store ["ACC1", "ACC2", "-5"]).2
        "ACC2")).balance = some 5 := by
  decide

/-- Claim C4 as amended: transfer_balance fails with the numeric-string
validation error, leaving the state unchanged, when the amount string does
not parse as a float; but positivity is not validated: a parsing negative
amount is accepted and the transfer proceeds in reverse, strictly
increasing the from-balance. -/
theorem C4_amount_validation (st : AStore) (f t s : String) :
    (parseDec s = none →
      AccountsCC.transfer_balance st [f, t, s] =
        (.err "3rd argument must be a numeric string", st)) ∧
    (∀ q fa fb : ℚ, parseDec s = some q → q < 0 → 0 ≤ fa → f ≠ t →
      (decodeAccount (aget st f)).balance = some fa →
      (decodeAccount (aget st t)).balance = some fb →
      ∃ st2, AccountsCC.transfer_balance st [f, t, s] = (.ok none, st2) ∧
        (decodeAccount (aget st2 f)).balance = some (fa - q) ∧
        (decodeAccount (aget st2 t)).balance = some (fb + q) ∧ fa < fa - q) := by
  constructor
  · intro hq
    simp [AccountsCC.transfer_balance, hq]
  · intro q fa fb hq hneg hfa0 hne hfa hfb
    have hok : ¬ (fa - q < 0) := by linarith
    refine ⟨aput (aput st f
        (.acctJson { decodeAccount (aget st f) with balance := some (fa - q) })) t
        (.acctJson { decodeAccount (aget st t) with balance := some (fb + q) }),
      ?_, ?_, ?_, by linarith⟩
    · simp [AccountsCC.transfer_balance, hq, hfa, hfb, hok]
    · simp [aget, aput, decodeAccount, Ne.symm hne]
    · simp [aget, aput, decodeAccount]

/-- Witness for C4: "12..56" is rejected with the validation error and the
state is returned unchanged, while the parsing negative string "-5" is
accepted and the transfer proceeds. -/
theorem C4_amount_validation_witness :
    AccountsCC.transfer_balance c4Store ["ACC1", "ACC2", "12..56"] =
      (.err "3rd argument must be a numeric string", c4Store) ∧
    ∃ st2, AccountsCC.transfer_balance c4Store ["ACC1", "ACC2", "-5"] = (.ok none, st2) ∧
      (decodeAccount (aget st2 "ACC1")).balance = some (10 - (-5)) ∧
      (decodeAccount (aget st2 "ACC2")).balance = some (10 + (-5)) ∧ (10 : ℚ) < 10 - (-5) :=
  ⟨(C4_amount_validation c4Store "ACC1" "ACC2" "12..56").1 (by decide),
   (C4_amount_validation c4Store "ACC1" "ACC2" "-5").2 (-5) 10 10
    (by decide) (by decide) (by decide) (by decide) (by decide) (by decide)⟩

/-- Claim C6: for validated arguments, init_account fails with the
already-exists error exactly when the value stored under the requested
account number decodes to a record whose embedded AccountNo equals the
requested key; any other stored value (or none) is treated as absent and
creation proceeds, overwriting that key with the new account record. -/
theorem C6_init_account_exists_check (st : AStore) (a0 a1 a2 a3 : String) (q : ℚ)
    (h0 : a0.length ≠ 0) (h1 : a1.length ≠ 0) (h2 : a2.length ≠ 0) (h3 : a3.length ≠ 0)
    (hq : parseDec a3 = some q) (hidx : a0 ≠ accountIndexStr) :
    ((decodeAccount (aget st a0)).accountNo = a0 →
      AccountsCC.init_account st [a0, a1, a2, a3] = (.err "This account arleady exists", st)) ∧
    ((decodeAccount (aget st a0)).accountNo ≠ a0 →
      ∃ st2, AccountsCC.init_account st [a0, a1, a2, a3] = (.ok none, st2) ∧
        aget st2 a0 = some (.acctJson ⟨a0, a1.toLower, a2, some q⟩)) := by
  constructor
  · intro hc
    simp [AccountsCC.init_account, hq, h0, h1, h2, h3, hc]
  · intro hc
    refine ⟨aput (aput st a0 (.acctJson ⟨a0, a1.toLower, a2, some q⟩)) accountIndexStr
        (.idxJson (decodeIdx (aget (aput st a0 (.acctJson ⟨a0, a1.toLower, a2, some q⟩))
          accountIndexStr) ++ [a0])),
      ?_, ?_⟩
    · simp [AccountsCC.init_account, hq, h0, h1, h2, h3, hc]
    · simp [aget, aput, Ne.symm hidx]

/-- Witness for C6: the key "A1" holds the foreign byte string "supplier"
(a participant-role style value), which decodes to the zero Account, so
creation proceeds and overwrites it with the new account record. -/
theorem C6_init_account_exists_check_witness :
    ∃ st2, AccountsCC.init_account c6Store ["A1", "Alice", "USD", "500"] = (.ok none, st2) ∧
      aget st2 "A1" = some (.acctJson ⟨"A1", "Alice".toLower, "USD", some 500⟩) :=
  (C6_init_account_exists_check c6Store "A1" "Alice" "USD" "500" 500
    (by decide) (by decide) (by decide) (by decide) (by decide) (by decide)).2 (by decide)

/-- Claim C9: a self-transfer of a parsed amount q from an account with
parsed balance b to itself passes the sufficiency check when 0 ≤ b - q and
succeeds; the second PutState overwrites the first, so the stored balance
becomes b + q. -/
theorem C9_self_transfer_inflates (st : AStore) (a s : String) (q b : ℚ)
    (hq : parseDec s = some q)
    (hb : (decodeAccount (aget st a)).balance = some b)
    (hge : 0 ≤ b - q) :
    ∃ st2, AccountsCC.transfer_balance st [a, a, s] = (.ok none, st2) ∧
      (decodeAccount (aget st2 a)).balance = some (b + q) := by
  have hok : ¬ (b - q < 0) := by linarith
  refine ⟨aput (aput st a
      (.acctJson { decodeAccount (aget st a) with balance := some (b - q) })) a
      (.acctJson { decodeAccount (aget st a) with balance := some (b + q) }),
    ?_, ?_⟩
  · simp [AccountsCC.transfer_balance, hq, hb, hok]
  · simp [aget, aput, decodeAccount]

/-- Witness for C9: a self-transfer of 40 on an account holding 100 ends
with the stored balance 100 + 40 = 140. -/
theorem C9_self_transfer_inflates_witness :
    ∃ st2, AccountsCC.transfer_balance c9Store ["A1", "A1", "40"] = (.ok none, st2) ∧
      (decodeAccount (aget st2 "A1")).balance = some (100 + 40) :=
  C9_self_transfer_inflates c9Store "A1" "40" 40 100 (by decide) (by decide) (by decide)

/-- Claim C2 (counterexample): the invoice INV1 has status CREATED ("0"),
no offer has been made, and bob holds the buyer role; accept_trade
succeeds with no invalid-state error and rewrites the record to status
ACCEPTED ("2"), skipping OFFERED. -/
theorem C2_accept_on_created_counterexample :
    c2Inv.status = "0" ∧
    (InvCC.accept_trade c2Store ["INV1", "bob"]).1 = GoRes.ok none ∧
    InvCC.retrieve_or_zero (InvCC.accept_trade c2Store ["INV1", "bob"]).2 "INV1" =
      { c2Inv with buyer := "bob", status := "2" } := by
  decide

/-- Claim C2 as amended: the status field is written without consulting
the current state.  accept_trade sets status to "2" (binding the buyer)
whenever the caller's registered role is buyer, and offer_trade sets
status to "1" (and the discount) whenever the caller equals the stored
supplier, whatever the current status — so acceptTrade before offerTrade
succeeds and modifies the record, and offerTrade can move an ACCEPTED
invoice back to OFFERED. -/
theorem C2_transitions_unguarded (st : IStore) (iid disc caller iid2 caller2 : String)
    (h1 : InvCC.get_role st caller = "buyer")
    (h2 : caller2 = (InvCC.retrieve_or_zero st iid2).supplier) :
    InvCC.accept_trade st [iid, caller] =
      (.ok none, iput st (InvCC.retrieve_or_zero st iid).invoiceId
        (.invJson { InvCC.retrieve_or_zero st iid with buyer := caller, status := "2" })) ∧
    InvCC.offer_trade st [iid2, disc, caller2] =
      (.ok none, iput st (InvCC.retrieve_or_zero st iid2).invoiceId
        (.invJson { InvCC.retrieve_or_zero st iid2 with status := "1", discount := disc })) := by
  constructor
  · simp [InvCC.accept_trade, h1]
  · simp [InvCC.offer_trade, h2]

/-- Witness for C2: on the CREATED invoice INV1, buyer bob's accept and
supplier test_user0's re-offer both go through unconditionally. -/
theorem C2_transitions_unguarded_witness :
    InvCC.accept_trade c2Store ["INV1", "bob"] =
      (.ok none, iput c2Store (InvCC.retrieve_or_zero c2Store "INV1").invoiceId
        (.invJson { InvCC.retrieve_or_zero c2Store "INV1" with buyer := "bob", status := "2" })) ∧
    InvCC.offer_trade c2Store ["INV1", "7.5", "test_user0"] =
      (.ok none, iput c2Store (InvCC.retrieve_or_zero c2Store "INV1").invoiceId
        (.invJson { InvCC.retrieve_or_zero c2Store "INV1" with status := "1", discount := "7.5" })) :=
  C2_transitions_unguarded c2Store "INV1" "7.5" "bob" "INV1" "test_user0"
    (by decide) (by decide)

/-- Claim C5 (counterexample): in the accounts.go variant of
getInvoiceDetails, the caller "payerA" equals the payer recorded on the
invoice but is neither its supplier nor its buyer, and the call is denied
— so the claim that any of supplier, buyer or payer is granted access
fails on this cited implementation. -/
theorem C5_payer_denied_counterexample :
    c5Inv0.payer = "payerA" ∧ c5Inv0.supplier ≠ "payerA" ∧ c5Inv0.buyer ≠ "payerA" ∧
    InvV0.get_invoice_details c5Inv0 "payerA" =
      GoRes.err "Permission Denied. get_invoice_details" := by
  decide

/-- Claim C5 as amended: the chaincode_start.go getInvoiceDetails returns
the full record exactly when the caller is the recorded supplier, buyer or
payer, and is denied otherwise; the accounts.go variant checks only the
supplier and the buyer, so a caller equal only to the payer is denied
there. -/
theorem C5_get_invoice_details_access (i : Invoice) (i0 : InvoiceV0) (c c0 : String) :
    InvCC.get_invoice_details i c =
      (if c ∈ [i.supplier, i.buyer, i.payer] then GoRes.ok (some i.jsonText)
       else GoRes.err "Permission Denied. get_invoice_details") ∧
    InvV0.get_invoice_details i0 c0 =
      (if c0 ∈ [i0.supplier, i0.buyer] then GoRes.ok (some i0.jsonText)
       else GoRes.err "Permission Denied. get_invoice_details") := by
  constructor
  · simp only [InvCC.get_invoice_details, List.mem_cons, List.not_mem_nil, or_false,
      eq_comm]
  · simp only [InvV0.get_invoice_details, List.mem_cons, List.not_mem_nil, or_false,
      eq_comm]

/-- Helper for C8: when every indexed id holds an Invoice object, the
retrieval loop returns exactly the retrieved invoices whose status is
OFFERED ("1"), in index order. -/
theorem collect_offered_eq (st : IStore) (ids : List String)
    (hok : ∀ iid ∈ ids, isInvAt st iid = true) :
    InvCC.collect_offered st ids =
      .ok ((ids.map (InvCC.retrieve_or_zero st)).filter (fun i => i.status == "1")) := by
  induction ids with
  | nil => simp [InvCC.collect_offered]
  | cons a rest ih =>
    have ha := hok a (by simp)
    have hrest := ih (fun x hx => hok x (by simp [hx]))
    cases hg : iget st a with
    | none => simp [isInvAt, hg] at ha
    | some v =>
      cases v with
      | raw s => simp [isInvAt, hg] at ha
      | holderJson l => simp [isInvAt, hg] at ha
      | invJson i =>
        by_cases hs : i.status == "1" <;>
          simp [InvCC.collect_offered, decodeInvoiceE, hg, hrest,
            InvCC.retrieve_or_zero, hs, List.filter_cons]

/-- Claim C8: for any caller arguments and any store whose holder lists
ids that all hold invoice records, get_opening_trade_invoices returns
exactly the indexed invoices with status OFFERED ("1") — every OFFERED one
and no other — with the caller identity never consulted (args is
universally quantified and absent from the result). -/
theorem C8_open_trades_filter (st : IStore) (args ids : List String)
    (hh : iget st "invoiceIDs" = some (.holderJson ids))
    (hok : ∀ iid ∈ ids, isInvAt st iid = true) :
    InvCC.get_opening_trade_invoices st args =
      (.ok (some (renderInvoices
        ((ids.map (InvCC.retrieve_or_zero st)).filter (fun i => i.status == "1")))), st) := by
  simp [InvCC.get_opening_trade_invoices, hh, decodeHolderE, collect_offered_eq st ids hok]

/-- Witness for C8: with I1 OFFERED and I2 CREATED in the index, a caller
unrelated to either invoice still receives exactly the OFFERED ones. -/
theorem C8_open_trades_filter_witness :
    InvCC.get_opening_trade_invoices c8Store ["mallory"] =
      (.ok (some (renderInvoices
        ((["I1", "I2"].map (InvCC.retrieve_or_zero c8Store)).filter
          (fun i => i.status == "1")))), c8Store) :=
  C8_open_trades_filter c8Store ["mallory"] ["I1", "I2"] (by decide) (by decide)

/-- Claim C10: create_invoice fails with the already-exists error whenever
any value at all is stored under args[0], before the role checks run; in
particular, after Init registers a participant role under a name, creating
an invoice whose id is that name fails with the already-exists error even
though the named supplier/payer arguments carry no roles. -/
theorem C10_create_invoice_occupied (st st2 : IStore) (a0 a1 a2 a3 nm rl b1 b2 b3 : String)
    (hs0 : jsonSafe a0 = true) (hs1 : jsonSafe a1 = true)
    (hs2 : jsonSafe a2 = true) (hs3 : jsonSafe a3 = true)
    (hocc : iget st a0 ≠ none)
    (hn0 : jsonSafe nm = true) (hn1 : jsonSafe b1 = true)
    (hn2 : jsonSafe b2 = true) (hn3 : jsonSafe b3 = true) :
    InvCC.create_invoice st [a0, a1, a2, a3] = (.err "Invoice already exists", st) ∧
    InvCC.create_invoice (InvCC.Init st2 [nm, rl]).2 [nm, b1, b2, b3] =
      (.err "Invoice already exists", (InvCC.Init st2 [nm, rl]).2) := by
  constructor
  · have hS : (iget st a0).isSome = true := Option.isSome_iff_ne_none.mpr hocc
    simp [InvCC.create_invoice, hs0, hs1, hs2, hs3, hS]
  · have h2 : iget (InvCC.Init st2 [nm, rl]).2 nm = some (.raw rl) := by
      simp [InvCC.Init, InvCC.initPairs, InvCC.add_particants, iput, iget]
    have hS : (iget (InvCC.Init st2 [nm, rl]).2 nm).isSome = true := by
      rw [h2]; rfl
    simp [InvCC.create_invoice, hn0, hn1, hn2, hn3, hS]

/-- Witness for C10: "supplier1" is an occupied key (it holds a role
string in c10Store, and Init writes it in the second part), and both
create_invoice calls fail with the already-exists error although the role
arguments "x"/"y" are not registered as supplier/payer at all. -/
theorem C10_create_invoice_occupied_witness :
    InvCC.create_invoice c10Store ["supplier1", "100.00", "x", "y"] =
      (.err "Invoice already exists", c10Store) ∧
    InvCC.create_invoice (InvCC.Init [] ["supplier1", "supplier"]).2
        ["supplier1", "100.00", "x", "y"] =
      (.err "Invoice already exists", (InvCC.Init [] ["supplier1", "supplier"]).2) :=
  C10_create_invoice_occupied c10Store [] "supplier1" "100.00" "x" "y"
    "supplier1" "supplier" "100.00" "x" "y"
    (by decide) (by decide) (by decide) (by decide) (by decide)
    (by decide) (by decide) (by decide) (by decide)

end ConcreteEvaluation
